import Mathlib

set_option maxRecDepth 4000

/-!
Verification of the user-account service in `task16.py`: a FastAPI app with
four request handlers (register, login, forgot-password, reset-password)
over a single `users` table, bcrypt password hashing and JWT reset tokens.

The embedding below translates the handlers into pure Lean functions over an
explicit store state.  Nondeterministic inputs of the real system (the bcrypt
salt, the current clock, the signing secret) are passed as explicit
parameters.  External libraries (passlib, PyJWT, pydantic EmailStr) are
modelled by small structures faithful to their documented behaviour.
-/

/-- A JWT as produced by `jwt.encode({"email": ..., "exp": ...}, SECRET_KEY,
algorithm="HS256")`: it carries the embedded claims (email, expiry) and the
secret it was signed with (standing for the HMAC signature). -/
structure Token where
  email : String
  exp : Nat
  sig : String
  deriving DecidableEq, Repr

/-- The `users` table row (task16.py lines 45-56): id, first_name, last_name,
unique email, unique numeric phone_number, password (hash), nullable
reset_token and reset_token_expires.  `created_at` is server-assigned and
never read by any handler, so it is omitted. -/
structure Account where
  id : Nat
  first_name : String
  last_name : String
  email : String
  phone_number : Nat
  password : String
  reset_token : Option Token
  reset_token_expires : Option Nat
  deriving DecidableEq, Repr

/-- The store: the rows of the `users` table plus the next auto-assigned id. -/
structure DB where
  users : List Account
  nextId : Nat
  deriving DecidableEq, Repr

/-- `db.query(User).filter(User.email == email).first()`. -/
def findByEmail (db : DB) (email : String) : Option Account :=
  db.users.find? (fun u => u.email == email)

/-- `db.query(User).filter((User.email == email) | (User.phone_number == phone)).first()`
(task16.py line 85). -/
def findByEmailOrPhone (db : DB) (email : String) (phone : Nat) : Option Account :=
  db.users.find? (fun u => u.email == email || u.phone_number == phone)

/-- ORM row mutation followed by commit: the row with the given primary key
is replaced by the mutated account. -/
def updateById (db : DB) (i : Nat) (a : Account) : DB :=
  { users := db.users.map (fun b => if b.id == i then a else b),
    nextId := db.nextId }

/-- HTTPException carrying `status_code` and `detail`. -/
structure Http where
  status : Nat
  detail : String
  deriving DecidableEq, Repr

/-- Modelled from the spec: the Credential Hasher (passlib `CryptContext`
with bcrypt), a library external to the repository sources.  `hash` takes
the per-call random salt as an explicit first argument. -/
structure Hasher where
  hash : Nat → String → String
  verify : String → String → Bool

/-- The hasher contract of spec section 4.1: `verify(plaintext, hash)` is
true iff the plaintext matches the hash that produced it, and the hash output
is never the plaintext itself. -/
structure HasherOK (H : Hasher) : Prop where
  verify_hash : ∀ s p, H.verify p (H.hash s p) = true
  hash_ne_plain : ∀ s p, H.hash s p ≠ p
  verify_of_ne : ∀ s p q, q ≠ p → H.verify q (H.hash s p) = false

/-- A concrete hasher satisfying the spec contract, used to instantiate
witnesses: it tags the plaintext with a bcrypt-style prefix. -/
def demoHasher : Hasher where
  hash := fun _ p => "$2b$" ++ p
  verify := fun p h => h == "$2b$" ++ p

/-- Errors raised by `jwt.decode`: `ExpiredSignatureError` and
`InvalidTokenError`. -/
inductive JwtError
  | expired
  | invalid
  deriving DecidableEq, Repr

/-- `jwt.decode(token, SECRET_KEY, algorithms=["HS256"])`: fails with
`InvalidTokenError` when the signature does not match the secret, with
`ExpiredSignatureError` when the embedded expiry has passed, and otherwise
returns the payload. -/
def jwtDecode (secret : String) (now : Nat) (t : Token) : Except JwtError Token :=
  if t.sig ≠ secret then .error .invalid
  else if t.exp ≤ now then .error .expired
  else .ok t

/-- Python `str.isdigit()`: true iff the string is non-empty and all its
characters are digits. -/
def pyIsDigit (s : String) : Bool :=
  !s.data.isEmpty && s.data.all Char.isDigit

/-- Python `int(v)` on a digit string. -/
def strToNat (s : String) : Nat :=
  s.data.foldl (fun n c => n * 10 + (c.toNat - 48)) 0

/-- Split a character list at every occurrence of the separator. -/
def splitOnChar (c : Char) : List Char → List (List Char)
  | [] => [[]]
  | x :: xs =>
      match splitOnChar c xs with
      | [] => if x == c then [[], []] else [[x]]
      | y :: ys => if x == c then [] :: y :: ys else (x :: y) :: ys

/-- Modelled from the spec: the `EmailStr` well-formedness check of the
validation library (external to the repository sources) — the address splits
at a single `@` into a non-empty local part and a non-empty domain that
contains a dot. -/
def emailFormatOk (s : String) : Bool :=
  match splitOnChar '@' s.data with
  | [lp, dom] => !lp.isEmpty && !dom.isEmpty && dom.contains '.'
  | _ => false

/-- The request body accepted by `/register` after pydantic validation: the
phone number has already been converted to an integer by the validator. -/
structure UserCreate where
  first_name : String
  last_name : String
  email : String
  phone_number : Nat
  password : String
  deriving DecidableEq, Repr

/-- The `validate_phone_number` validator of `UserCreate` (task16.py lines
71-75): `if not v.isdigit() or not (10 <= len(v) <= 15): raise ValueError`,
else `return int(v)`. -/
def validate_phone_number (v : String) : Except String Nat :=
  if !(pyIsDigit v) || !(decide (10 ≤ v.length) && decide (v.length ≤ 15)) then
    .error "Phone number must be numeric and between 10 to 15 digits long"
  else
    .ok (strToNat v)

/-- Pydantic validation of the `UserCreate` model (task16.py lines 64-75):
`first_name`, `last_name` and `password` are plain `str` fields with no
constraint (the empty string is accepted); `email` must satisfy `EmailStr`;
`phone_number` runs the custom validator. -/
def validateUserCreate (first last email phone password : String) :
    Except String UserCreate :=
  if !(emailFormatOk email) then
    .error "value is not a valid email address"
  else
    match validate_phone_number phone with
    | .error e => .error e
    | .ok ph =>
        .ok { first_name := first, last_name := last, email := email,
              phone_number := ph, password := password }

/-- The operations the `register` handler performs on its inputs and the
store, in program order. -/
inductive RegEvent
  | hashPwd
  | uniqQuery
  | insertRow
  deriving DecidableEq, Repr

/-- Result of the `register` handler: HTTP outcome, resulting store, and the
trace of hash/query/insert operations in the order the code runs them. -/
structure RegisterResult where
  result : Except Http String
  db : DB
  trace : List RegEvent
  deriving Repr

/-- The `/register` handler (task16.py lines 77-110).  The code hashes the
password first (line 80), then queries for an existing email or phone
(line 85) — raising 400 on a hit — then inserts the new row and commits. -/
def register (H : Hasher) (salt : Nat) (db : DB) (u : UserCreate) :
    RegisterResult :=
  let hashed := H.hash salt u.password
  match findByEmailOrPhone db u.email u.phone_number with
  | some _ =>
      { result := .error { status := 400,
                           detail := "Email or Phone Number already registered" },
        db := db,
        trace := [.hashPwd, .uniqQuery] }
  | none =>
      let newUser : Account :=
        { id := db.nextId, first_name := u.first_name, last_name := u.last_name,
          email := u.email, phone_number := u.phone_number, password := hashed,
          reset_token := none, reset_token_expires := none }
      { result := .ok "User registered successfully",
        db := { users := db.users ++ [newUser], nextId := db.nextId + 1 },
        trace := [.hashPwd, .uniqQuery, .insertRow] }

/-- Result of a handler that returns an HTTP outcome and the resulting
store. -/
structure HandlerOut where
  result : Except Http String
  db : DB
  deriving Repr

/-- The `/login` handler (task16.py lines 112-129): look up by email, 400
`Email not found` if absent, verify the password against the stored hash,
400 `Invalid password` on mismatch, else 200.  No write is performed. -/
def login (H : Hasher) (db : DB) (email password : String) : HandlerOut :=
  match findByEmail db email with
  | none => { result := .error { status := 400, detail := "Email not found" },
              db := db }
  | some user =>
      if !(H.verify password user.password) then
        { result := .error { status := 400, detail := "Invalid password" },
          db := db }
      else
        { result := .ok "Login successful", db := db }

/-- The `/forgot-password` handler (task16.py lines 131-164): look up by
email, 404 if absent; otherwise sign a JWT embedding the email and a
one-hour expiry, store it together with the expiry on the row, commit, and
schedule the mail send. -/
def forgot_password (secret : String) (now : Nat) (db : DB) (email : String) :
    HandlerOut :=
  match findByEmail db email with
  | none => { result := .error { status := 404, detail := "Email not found" },
              db := db }
  | some user =>
      let token : Token := { email := user.email, exp := now + 3600, sig := secret }
      { result := .ok "Password reset email sent",
        db := updateById db user.id
          { user with reset_token := some token,
                      reset_token_expires := some (now + 3600) } }

/-- The `/reset-password` handler (task16.py lines 166-192): decode the JWT
(400 `Token has expired` / `Invalid token` on failure), look up the account
by the embedded email (400 `Invalid token` if absent), hash the new password
and commit it.  The stored `reset_token` and `reset_token_expires` are never
read, compared, or cleared. -/
def reset_password (H : Hasher) (secret : String) (now salt : Nat) (db : DB)
    (token : Token) (new_password : String) : HandlerOut :=
  match jwtDecode secret now token with
  | .error .expired =>
      { result := .error { status := 400, detail := "Token has expired" }, db := db }
  | .error .invalid =>
      { result := .error { status := 400, detail := "Invalid token" }, db := db }
  | .ok payload =>
      match findByEmail db payload.email with
      | none =>
          { result := .error { status := 400, detail := "Invalid token" }, db := db }
      | some user =>
          { result := .ok "Password reset successfully",
            db := updateById db user.id
              { user with password := H.hash salt new_password } }

/-- How a single handler invocation terminates. -/
inductive Outcome
  | success
  | handled (e : Http)
  | unexpected
  deriving DecidableEq, Repr

/-- Resource bookkeeping for one handler invocation: how it terminated,
whether the session it opened was closed, and whether an in-flight
transaction was rolled back. -/
structure SessionRun where
  outcome : Outcome
  sessionClosed : Bool
  rolledBack : Bool
  deriving DecidableEq, Repr

/-- Resource behaviour of `/register` (task16.py lines 77-110).  The body
runs inside `try/except HTTPException/except Exception/finally`: a conflict
re-raises the 400 through the finally; an unexpected store failure at commit
(`commitFault`) is caught by `except Exception`, which rolls back and raises
500; `finally: db.close()` runs on every path. -/
def register_run (db : DB) (u : UserCreate) (commitFault : Bool) : SessionRun :=
  match findByEmailOrPhone db u.email u.phone_number with
  | some _ =>
      { outcome := .handled { status := 400,
                              detail := "Email or Phone Number already registered" },
        sessionClosed := true, rolledBack := false }
  | none =>
      if commitFault then
        { outcome := .handled { status := 500,
                                detail := "An error occurred during registration." },
          sessionClosed := true, rolledBack := true }
      else
        { outcome := .success, sessionClosed := true, rolledBack := false }

/-- Resource behaviour of `/login` (task16.py lines 112-129).  There is no
`try/finally`: each handled exit calls `db.close()` explicitly, but an
unexpected exception inside `pwd_context.verify` (`verifyFault`) propagates
with the session still open. -/
def login_run (H : Hasher) (db : DB) (email password : String)
    (verifyFault : Bool) : SessionRun :=
  match findByEmail db email with
  | none =>
      { outcome := .handled { status := 400, detail := "Email not found" },
        sessionClosed := true, rolledBack := false }
  | some user =>
      if verifyFault then
        { outcome := .unexpected, sessionClosed := false, rolledBack := false }
      else if !(H.verify password user.password) then
        { outcome := .handled { status := 400, detail := "Invalid password" },
          sessionClosed := true, rolledBack := false }
      else
        { outcome := .success, sessionClosed := true, rolledBack := false }

/-- Resource behaviour of `/forgot-password` (task16.py lines 131-164).
There is no `try/finally`: the not-found exit closes the session explicitly,
but an unexpected exception after the lookup — e.g. a store failure at
`db.commit()` (`commitFault`) — propagates before the trailing `db.close()`
is reached, leaving the session open and the transaction not rolled back. -/
def forgot_password_run (db : DB) (email : String) (commitFault : Bool) :
    SessionRun :=
  match findByEmail db email with
  | none =>
      { outcome := .handled { status := 404, detail := "Email not found" },
        sessionClosed := true, rolledBack := false }
  | some _ =>
      if commitFault then
        { outcome := .unexpected, sessionClosed := false, rolledBack := false }
      else
        { outcome := .success, sessionClosed := true, rolledBack := false }

/-- Resource behaviour of `/reset-password` (task16.py lines 166-192).  The
body runs inside `try/except jwt.ExpiredSignatureError/except
jwt.InvalidTokenError/finally`: a store failure at `db.commit()`
(`commitFault`) matches neither `except` clause, so it propagates without a
rollback, though `finally: db.close()` still closes the session. -/
def reset_password_run (secret : String) (now : Nat) (db : DB) (token : Token)
    (commitFault : Bool) : SessionRun :=
  match jwtDecode secret now token with
  | .error .expired =>
      { outcome := .handled { status := 400, detail := "Token has expired" },
        sessionClosed := true, rolledBack := false }
  | .error .invalid =>
      { outcome := .handled { status := 400, detail := "Invalid token" },
        sessionClosed := true, rolledBack := false }
  | .ok payload =>
      match findByEmail db payload.email with
      | none =>
          { outcome := .handled { status := 400, detail := "Invalid token" },
            sessionClosed := true, rolledBack := false }
      | some _ =>
          if commitFault then
            { outcome := .unexpected, sessionClosed := true, rolledBack := false }
          else
            { outcome := .success, sessionClosed := true, rolledBack := false }

/-- An account's reset fields are both present or both absent. -/
def resetConsistent (a : Account) : Prop :=
  a.reset_token.isSome = a.reset_token_expires.isSome

instance (a : Account) : Decidable (resetConsistent a) :=
  inferInstanceAs (Decidable (a.reset_token.isSome = a.reset_token_expires.isSome))

/-- Every account in the store has consistent reset fields. -/
def DBConsistent (db : DB) : Prop :=
  ∀ a ∈ db.users, resetConsistent a

instance (db : DB) : Decidable (DBConsistent db) :=
  inferInstanceAs (Decidable (∀ a ∈ db.users, resetConsistent a))

deriving instance DecidableEq for Except

/- Concrete scenario data used by counterexamples and witnesses. -/

/-- The empty store. -/
def dbEmpty : DB := { users := [], nextId := 1 }

/-- A well-formed registration request. -/
def uDemo : UserCreate :=
  { first_name := "Ann", last_name := "Lee", email := "a@x.com",
    phone_number := 1234567890, password := "p1" }

/-- The store after registering `uDemo` into the empty store. -/
def db0 : DB := (register demoHasher 0 dbEmpty uDemo).db

/-- The signing secret of the concrete scenario. -/
def secretKey : String := "s3cr3t"

/-- The store after a forgot-password call for `a@x.com` at time 0. -/
def db1 : DB := (forgot_password secretKey 0 db0 "a@x.com").db

/-- The token that forgot-password issued at time 0: email `a@x.com`,
expiry 3600, signed with the secret. -/
def tok1 : Token := { email := "a@x.com", exp := 3600, sig := secretKey }

/-- The single account stored in `db0`. -/
def acct0 : Account :=
  { id := 1, first_name := "Ann", last_name := "Lee", email := "a@x.com",
    phone_number := 1234567890, password := "$2b$p1",
    reset_token := none, reset_token_expires := none }

/-! Helper lemmas. -/

/-- String append is left-cancellative. -/
theorem string_append_left_cancel {s t u : String} (h : s ++ t = s ++ u) : t = u := by
  have hd := congrArg String.data h
  simp [String.data_append] at hd
  exact String.ext hd

/-- The demo hasher satisfies the spec contract of section 4.1. -/
theorem demoHasher_ok : HasherOK demoHasher := by
  refine ⟨?_, ?_, ?_⟩
  · intro s p
    exact beq_self_eq_true _
  · intro s p h
    have hl : ("$2b$" ++ p).length = p.length := congrArg String.length h
    rw [String.length_append] at hl
    have h4 : ("$2b$" : String).length = 4 := rfl
    omega
  · intro s p q hne
    show ("$2b$" ++ p == "$2b$" ++ q) = false
    rw [beq_eq_false_iff_ne]
    intro h
    exact hne (string_append_left_cancel h).symm

/-- When the uniqueness query finds an existing row, register answers 400
and leaves the store unchanged. -/
theorem register_conflict (H : Hasher) (salt : Nat) (db : DB) (u : UserCreate)
    (b : Account)
    (h : findByEmailOrPhone db u.email u.phone_number = some b) :
    (register H salt db u).result
        = .error { status := 400,
                   detail := "Email or Phone Number already registered" } ∧
    (register H salt db u).db = db := by
  constructor <;> simp [register, h]

/-- The login handler never writes to the store. -/
theorem login_db_eq (H : Hasher) (db : DB) (email q : String) :
    (login H db email q).db = db := by
  unfold login
  cases h : findByEmail db email
  · rfl
  · dsimp only
    split <;> rfl

/-- Updating one row with a reset-consistent account preserves store
consistency. -/
theorem resetConsistent_updateById (db : DB) (i : Nat) (a : Account)
    (hdb : DBConsistent db) (ha : resetConsistent a) :
    DBConsistent (updateById db i a) := by
  intro b hb
  simp only [updateById] at hb
  rcases List.mem_map.mp hb with ⟨c, hc, hcb⟩
  rw [← hcb]
  split
  · exact ha
  · exact hdb c hc

/-! Claim theorems. -/

/-- Claim C1 (code_bug): contrary to the spec's "exactly one password
change per token", the code never consults or clears the stored reset
token, so the very same unexpired token issued by forgot-password is
accepted by a second reset-password call, which changes the password
again. -/
theorem claim_C1_reset_token_reusable :
    (reset_password demoHasher secretKey 10 1 db1 tok1 "np1").result
        = .ok "Password reset successfully" ∧
    (reset_password demoHasher secretKey 20 2
        (reset_password demoHasher secretKey 10 1 db1 tok1 "np1").db
        tok1 "np2").result = .ok "Password reset successfully" ∧
    ((reset_password demoHasher secretKey 20 2
        (reset_password demoHasher secretKey 10 1 db1 tok1 "np1").db
        tok1 "np2").db).users.map Account.password = [demoHasher.hash 2 "np2"] := by
  refine ⟨rfl, rfl, rfl⟩

/-- Claim C2 counterexample: when an unexpected exception (a store failure
at commit) occurs in forgot-password after the account lookup succeeded,
the handler terminates without closing the session it opened — there is no
try/finally around the body (task16.py lines 131-164). -/
theorem claim_C2_counterexample :
    (forgot_password_run db0 "a@x.com" true).outcome = Outcome.unexpected ∧
    (forgot_password_run db0 "a@x.com" true).sessionClosed = false := by
  decide

/-- Claim C2 (amended): register and reset-password close their session on
every exit path (their bodies run inside try/finally); login and
forgot-password close it on the success and handled-error paths. -/
theorem claim_C2_sessions_amended (H : Hasher) (db : DB) (u : UserCreate)
    (secret e q : String) (now : Nat) (t : Token) (f : Bool) :
    (register_run db u f).sessionClosed = true ∧
    (reset_password_run secret now db t f).sessionClosed = true ∧
    (login_run H db e q false).sessionClosed = true ∧
    (forgot_password_run db e false).sessionClosed = true := by
  refine ⟨?_, ?_, ?_, ?_⟩
  · unfold register_run
    cases h : findByEmailOrPhone db u.email u.phone_number
    · dsimp only
      split <;> rfl
    · rfl
  · unfold reset_password_run
    cases hj : jwtDecode secret now t with
    | error e2 => cases e2 <;> rfl
    | ok payload =>
        dsimp only
        cases hf : findByEmail db payload.email
        · rfl
        · dsimp only
          split <;> rfl
  · unfold login_run
    cases h : findByEmail db e
    · rfl
    · dsimp only
      rw [if_neg Bool.false_ne_true]
      split <;> rfl
  · unfold forgot_password_run
    cases h : findByEmail db e
    · rfl
    · dsimp only
      rw [if_neg Bool.false_ne_true]

/-- Claim C3 counterexample: a store failure at commit inside
reset-password matches neither of the handler's except clauses (which only
catch the JWT errors), so the error propagates with no rollback of the
in-flight transaction (task16.py lines 166-192). -/
theorem claim_C3_counterexample :
    (reset_password_run secretKey 10 db1 tok1 true).outcome = Outcome.unexpected ∧
    (reset_password_run secretKey 10 db1 tok1 true).rolledBack = false := by
  decide

/-- Claim C3 (amended): only register rolls back the in-flight transaction
on a store-level failure (its except-Exception clause, task16.py line 106)
before surfacing a 500; forgot-password and reset-password surface the
failure without any rollback. -/
theorem claim_C3_rollback_amended (db : DB) (u : UserCreate) (secret e : String)
    (now : Nat) (t : Token) :
    (findByEmailOrPhone db u.email u.phone_number = none →
      (register_run db u true).outcome
          = Outcome.handled { status := 500,
                              detail := "An error occurred during registration." } ∧
      (register_run db u true).rolledBack = true) ∧
    (forgot_password_run db e true).rolledBack = false ∧
    (reset_password_run secret now db t true).rolledBack = false := by
  refine ⟨?_, ?_, ?_⟩
  · intro h
    unfold register_run
    rw [h]
    exact ⟨rfl, rfl⟩
  · unfold forgot_password_run
    cases h : findByEmail db e
    · rfl
    · rfl
  · unfold reset_password_run
    cases hj : jwtDecode secret now t with
    | error e2 => cases e2 <;> rfl
    | ok payload =>
        dsimp only
        cases hf : findByEmail db payload.email <;> rfl

/-- Claim C3 amended witness: concrete runs for each conjunct. -/
theorem claim_C3_rollback_amended_witness :
    (register_run dbEmpty uDemo true).rolledBack = true ∧
    (forgot_password_run db0 "a@x.com" true).rolledBack = false ∧
    (reset_password_run secretKey 10 db1 tok1 true).rolledBack = false :=
  ⟨((claim_C3_rollback_amended dbEmpty uDemo secretKey "e" 0 tok1).1 rfl).2,
   (claim_C3_rollback_amended db0 uDemo secretKey "a@x.com" 0 tok1).2.1,
   (claim_C3_rollback_amended db1 uDemo secretKey "e" 10 tok1).2.2⟩

/-- Claim C4 counterexample: a request with empty first name, empty last
name and empty password passes validation (the pydantic model only
constrains email and phone, task16.py lines 64-75) and is then persisted by
register — it is not rejected. -/
theorem claim_C4_counterexample :
    validateUserCreate "" "" "a@x.com" "1234567890" ""
        = .ok { first_name := "", last_name := "", email := "a@x.com",
                phone_number := 1234567890, password := "" } ∧
    (register demoHasher 0 dbEmpty
        { first_name := "", last_name := "", email := "a@x.com",
          phone_number := 1234567890, password := "" }).result
        = .ok "User registered successfully" := by
  decide

/-- Claim C4 (amended): register validates only the email format and the
phone shape (numeric, 10-15 digits) before any persistence attempt; first
name, last name and password are not constrained and may be empty. -/
theorem claim_C4_validation_amended (first last email phone password : String) :
    (emailFormatOk email = false →
      validateUserCreate first last email phone password
        = .error "value is not a valid email address") ∧
    (pyIsDigit phone = false ∨ phone.length < 10 ∨ 15 < phone.length →
      emailFormatOk email = true →
      validateUserCreate first last email phone password
        = .error "Phone number must be numeric and between 10 to 15 digits long") := by
  constructor
  · intro h
    simp [validateUserCreate, h]
  · intro h he
    have hv : validate_phone_number phone
        = .error "Phone number must be numeric and between 10 to 15 digits long" := by
      unfold validate_phone_number
      have hcond : (!(pyIsDigit phone)
          || !(decide (10 ≤ phone.length) && decide (phone.length ≤ 15))) = true := by
        rcases h with h | h | h
        · simp [h]
        · have hd : decide (10 ≤ phone.length) = false := by
            simp
            omega
          simp [hd]
        · have hd : decide (phone.length ≤ 15) = false := by
            simp
            omega
          simp [hd]
      rw [if_pos hcond]
    simp [validateUserCreate, he, hv]

/-- Claim C4 amended witness: a 3-digit phone number is rejected by
validation. -/
theorem claim_C4_validation_amended_witness :
    validateUserCreate "Ann" "Lee" "a@x.com" "123" "p1"
        = .error "Phone number must be numeric and between 10 to 15 digits long" :=
  (claim_C4_validation_amended "Ann" "Lee" "a@x.com" "123" "p1").2
    (by decide) (by decide)

/-- Claim C5 counterexample: on a concrete valid registration the trace of
operations is hash-then-query-then-insert, not the claimed
query-then-hash-then-insert — the code hashes on line 80, before the
uniqueness query on line 85. -/
theorem claim_C5_counterexample :
    (register demoHasher 0 dbEmpty uDemo).trace
        ≠ [RegEvent.uniqQuery, RegEvent.hashPwd, RegEvent.insertRow] ∧
    (register demoHasher 0 dbEmpty uDemo).trace
        = [RegEvent.hashPwd, RegEvent.uniqQuery, RegEvent.insertRow] := by
  decide

/-- Claim C5 (amended): for every registration request that passes shape
validation, register hashes the password first, then checks email/phone
uniqueness, and then — when no conflict was found — inserts the new
account. -/
theorem claim_C5_order_amended (H : Hasher) (salt : Nat) (db : DB) (u : UserCreate) :
    ((register H salt db u).trace = [RegEvent.hashPwd, RegEvent.uniqQuery] ∨
     (register H salt db u).trace
        = [RegEvent.hashPwd, RegEvent.uniqQuery, RegEvent.insertRow]) ∧
    (findByEmailOrPhone db u.email u.phone_number = none →
      (register H salt db u).trace
        = [RegEvent.hashPwd, RegEvent.uniqQuery, RegEvent.insertRow]) := by
  constructor
  · cases h : findByEmailOrPhone db u.email u.phone_number
    · right
      simp [register, h]
    · left
      simp [register, h]
  · intro h
    simp [register, h]

/-- Claim C5 amended witness: the concrete registration runs hash, query,
insert in that order. -/
theorem claim_C5_order_amended_witness :
    (register demoHasher 0 dbEmpty uDemo).trace
        = [RegEvent.hashPwd, RegEvent.uniqQuery, RegEvent.insertRow] :=
  (claim_C5_order_amended demoHasher 0 dbEmpty uDemo).2 rfl

/-- Claim C6 (confirmed): reset-password accepts any token whose signature
matches the secret and whose embedded expiry is in the future, provided an
account with the embedded email exists — the account is universally
quantified, so its stored reset_token and reset_token_expires (null, this
token, or any other token) play no role: the password is updated from the
JWT alone. -/
theorem claim_C6_reset_ignores_stored_token (H : Hasher) (secret : String)
    (now salt : Nat) (db : DB) (t : Token) (np : String) (user : Account)
    (hsig : t.sig = secret) (hexp : now < t.exp)
    (hfind : findByEmail db t.email = some user) :
    (reset_password H secret now salt db t np).result
        = .ok "Password reset successfully" ∧
    (reset_password H secret now salt db t np).db
        = updateById db user.id { user with password := H.hash salt np } := by
  have hdec : jwtDecode secret now t = .ok t := by
    unfold jwtDecode
    rw [if_neg (fun hc => hc hsig), if_neg (Nat.not_le.mpr hexp)]
  constructor
  · simp [reset_password, hdec, hfind]
  · simp [reset_password, hdec, hfind]

/-- Claim C6 witness: in `db0` the stored reset fields are null, yet the
validly signed, unexpired token `tok1` resets the password. -/
theorem claim_C6_witness :
    (reset_password demoHasher secretKey 10 1 db0 tok1 "np1").result
        = .ok "Password reset successfully" ∧
    (reset_password demoHasher secretKey 10 1 db0 tok1 "np1").db
        = updateById db0 acct0.id { acct0 with password := demoHasher.hash 1 "np1" } :=
  claim_C6_reset_ignores_stored_token demoHasher secretKey 10 1 db0 tok1 "np1"
    acct0 rfl (by decide) (by decide)

/-- Claim C7 (confirmed): a registration with unique email and phone
appends one account whose password field is the hasher's output on the
submitted plaintext — never the plaintext itself — and verifying the
plaintext against it succeeds, for every hasher meeting the spec's
contract. -/
theorem claim_C7_password_hashed (H : Hasher) (hH : HasherOK H) (salt : Nat)
    (db : DB) (u : UserCreate)
    (huniq : findByEmailOrPhone db u.email u.phone_number = none) :
    ∃ a : Account,
      (register H salt db u).db.users = db.users ++ [a] ∧
      a.password = H.hash salt u.password ∧
      a.password ≠ u.password ∧
      H.verify u.password a.password = true := by
  refine ⟨{ id := db.nextId, first_name := u.first_name, last_name := u.last_name,
            email := u.email, phone_number := u.phone_number,
            password := H.hash salt u.password,
            reset_token := none, reset_token_expires := none },
          ?_, rfl, hH.hash_ne_plain salt u.password, hH.verify_hash salt u.password⟩
  simp [register, huniq]

/-- Claim C7 witness: the concrete registration of `uDemo`. -/
theorem claim_C7_witness :
    ∃ a : Account,
      (register demoHasher 0 dbEmpty uDemo).db.users = dbEmpty.users ++ [a] ∧
      a.password = demoHasher.hash 0 uDemo.password ∧
      a.password ≠ uDemo.password ∧
      demoHasher.verify uDemo.password a.password = true :=
  claim_C7_password_hashed demoHasher demoHasher_ok 0 dbEmpty uDemo rfl

/-- Claim C8 (confirmed): login answers 400 `Email not found` for an
unknown email, 400 `Invalid password` when the stored hash was produced
from a different plaintext, and 200 on a match — and in every case the
store is returned unchanged (the handler performs no write). -/
theorem claim_C8_login_cases (H : Hasher) (hH : HasherOK H) (db : DB)
    (email q p : String) (s : Nat) :
    (findByEmail db email = none →
      (login H db email q).result
          = .error { status := 400, detail := "Email not found" }) ∧
    (∀ user, findByEmail db email = some user → user.password = H.hash s p →
      q ≠ p →
      (login H db email q).result
          = .error { status := 400, detail := "Invalid password" }) ∧
    (∀ user, findByEmail db email = some user → user.password = H.hash s p →
      q = p →
      (login H db email q).result = .ok "Login successful") ∧
    (login H db email q).db = db := by
  refine ⟨?_, ?_, ?_, login_db_eq H db email q⟩
  · intro h
    simp [login, h]
  · intro user hu hp hne
    have hv : H.verify q user.password = false := by
      rw [hp]
      exact hH.verify_of_ne s p q hne
    simp [login, hu, hv]
  · intro user hu hp heq
    have hv : H.verify q user.password = true := by
      rw [hp, heq]
      exact hH.verify_hash s p
    simp [login, hu, hv]

/-- Claim C8 witness: the three login outcomes on the concrete store `db0`,
whose account was registered with password `p1`. -/
theorem claim_C8_witness :
    (login demoHasher db0 "nobody@x.com" "p1").result
        = .error { status := 400, detail := "Email not found" } ∧
    (login demoHasher db0 "a@x.com" "wrong").result
        = .error { status := 400, detail := "Invalid password" } ∧
    (login demoHasher db0 "a@x.com" "p1").result = .ok "Login successful" ∧
    (login demoHasher db0 "a@x.com" "wrong").db = db0 :=
  ⟨(claim_C8_login_cases demoHasher demoHasher_ok db0 "nobody@x.com" "p1" "p1" 0).1
      (by decide),
   (claim_C8_login_cases demoHasher demoHasher_ok db0 "a@x.com" "wrong" "p1" 0).2.1
      acct0 (by decide) (by decide) (by decide),
   (claim_C8_login_cases demoHasher demoHasher_ok db0 "a@x.com" "p1" "p1" 0).2.2.1
      acct0 (by decide) (by decide) rfl,
   (claim_C8_login_cases demoHasher demoHasher_ok db0 "a@x.com" "wrong" "p1" 0).2.2.2⟩

/-- Claim C9 (confirmed): in every store where each account's reset_token
and reset_token_expires are both present or both absent, every handler
(register, login, forgot-password, reset-password) returns a store
satisfying the same invariant: register inserts with both null, login never
writes, forgot-password sets both together, reset-password touches only the
password field. -/
theorem claim_C9_reset_fields_consistent (H : Hasher) (salt : Nat)
    (secret : String) (now : Nat) (db : DB) (u : UserCreate)
    (email q : String) (t : Token) (hdb : DBConsistent db) :
    DBConsistent (register H salt db u).db ∧
    DBConsistent (login H db email q).db ∧
    DBConsistent (forgot_password secret now db email).db ∧
    DBConsistent (reset_password H secret now salt db t q).db := by
  refine ⟨?_, ?_, ?_, ?_⟩
  · cases h : findByEmailOrPhone db u.email u.phone_number with
    | some w => simpa [register, h] using hdb
    | none =>
        intro a ha
        simp [register, h, List.mem_append] at ha
        rcases ha with ha | ha
        · exact hdb a ha
        · subst ha
          rfl
  · rw [login_db_eq]
    exact hdb
  · unfold forgot_password
    cases h : findByEmail db email with
    | none => exact hdb
    | some user =>
        exact resetConsistent_updateById db user.id _ hdb rfl
  · unfold reset_password
    cases hj : jwtDecode secret now t with
    | error e2 => cases e2 <;> exact hdb
    | ok payload =>
        dsimp only
        cases hf : findByEmail db payload.email with
        | none => exact hdb
        | some user =>
            exact resetConsistent_updateById db user.id _ hdb
              (hdb user (List.mem_of_find?_eq_some hf))

/-- Claim C9 witness: the invariant holds after each handler runs on the
concrete store `db0`. -/
theorem claim_C9_witness :
    DBConsistent (register demoHasher 0 db0 uDemo).db ∧
    DBConsistent (login demoHasher db0 "a@x.com" "p1").db ∧
    DBConsistent (forgot_password secretKey 0 db0 "a@x.com").db ∧
    DBConsistent (reset_password demoHasher secretKey 0 0 db0 tok1 "p1").db :=
  claim_C9_reset_fields_consistent demoHasher 0 secretKey 0 db0 uDemo
    "a@x.com" "p1" tok1 (by decide)

/-- Claim C10 (confirmed): after a successful registration, a second
registration with the same email fails with 400
`Email or Phone Number already registered` and leaves the store — in
particular the first account — exactly as it was. -/
theorem claim_C10_duplicate_email (H : Hasher) (s1 s2 : Nat) (db : DB)
    (u u2 : UserCreate) (hEmail : u2.email = u.email)
    (hFirst : (register H s1 db u).result = .ok "User registered successfully") :
    (register H s2 (register H s1 db u).db u2).result
        = .error { status := 400,
                   detail := "Email or Phone Number already registered" } ∧
    (register H s2 (register H s1 db u).db u2).db = (register H s1 db u).db := by
  cases h : findByEmailOrPhone db u.email u.phone_number with
  | some w =>
      rw [show (register H s1 db u).result
            = .error { status := 400,
                       detail := "Email or Phone Number already registered" }
          from by simp [register, h]] at hFirst
      exact absurd hFirst (by simp)
  | none =>
      have hdb1 : (register H s1 db u).db
          = { users := db.users
                ++ [{ id := db.nextId, first_name := u.first_name,
                      last_name := u.last_name, email := u.email,
                      phone_number := u.phone_number,
                      password := H.hash s1 u.password, reset_token := none,
                      reset_token_expires := none }],
              nextId := db.nextId + 1 } := by
        simp [register, h]
      have hsome : (findByEmailOrPhone (register H s1 db u).db
          u2.email u2.phone_number).isSome := by
        rw [hdb1]
        unfold findByEmailOrPhone
        rw [List.find?_isSome]
        exact ⟨{ id := db.nextId, first_name := u.first_name,
                 last_name := u.last_name, email := u.email,
                 phone_number := u.phone_number,
                 password := H.hash s1 u.password, reset_token := none,
                 reset_token_expires := none },
               by simp, by simp [hEmail]⟩
      obtain ⟨b, hb⟩ := Option.isSome_iff_exists.mp hsome
      exact register_conflict H s2 (register H s1 db u).db u2 b hb

/-- Claim C10 witness: registering `uDemo` twice from the empty store. -/
theorem claim_C10_witness :
    (register demoHasher 0 (register demoHasher 0 dbEmpty uDemo).db uDemo).result
        = .error { status := 400,
                   detail := "Email or Phone Number already registered" } ∧
    (register demoHasher 0 (register demoHasher 0 dbEmpty uDemo).db uDemo).db
        = (register demoHasher 0 dbEmpty uDemo).db :=
  claim_C10_duplicate_email demoHasher 0 0 dbEmpty uDemo uDemo rfl rfl
